import Mathlib

/-!
A shallow embedding of the Smart-ToDo REST API core (Express + Mongoose + JWT)
and proofs of its authentication/authorization properties.

Source files embedded:
  - models/User.js, models/Task.js      (document schemas)
  - routes/auth.js                      (register / login, generateToken)
  - middleware/auth.js                  (authenticate, the identity gate)
  - routes/tasks.js                     (task CRUD handlers)

Modelling conventions:
  - Mongo collections are Lean lists; `findOne` is `List.find?` (first match
    in natural order), `findOneAndDelete` is `List.eraseP`, `save` of an
    existing document replaces the document with the same `_id`.
  - A JWT string is modelled structurally: a `Token` carries the payload
    (`userId`), `iat`, `exp`, and the secret it was signed with (`sig`);
    verification succeeds iff `sig` equals the verifier secret and the
    clock has not reached `exp` (jsonwebtoken treats `now ≥ exp` as expired).
    An unparsable token string is the `BearerToken.garbage` constructor.
  - The express-validator layer for the auth routes (isEmail etc.) is an
    external collaborator; its verdict enters the handlers as the boolean
    `validationOk`, mirroring the `validationResult(req).isEmpty()` check.
    The task-route validators are simple trim/length checks and are embedded
    concretely.
  - bcrypt hashing/comparison are parameters (`hash`, `compare`): no claim
    depends on the digests themselves.
  - Clocks and fresh store ids are explicit `Nat` parameters.
-/

namespace SmartTodo

/-- models/User.js: the stored user document. `password` holds the bcrypt
hash produced by the pre-save hook; the schema marks it `select: false`. -/
structure User where
  _id : Nat
  username : String
  email : String
  password : String
  deriving Repr, DecidableEq

/-- The shape of a default (`select: false`-respecting) read of a user, and
of the public user projection in register/login responses: exactly identity,
username and email, no password field. -/
structure SafeUser where
  id : Nat
  username : String
  email : String
  deriving Repr, DecidableEq

/-- Forgetting the password hash of a stored user. -/
def dropPassword (u : User) : SafeUser :=
  ⟨u._id, u.username, u.email⟩

/-- models/Task.js: the stored task document. `user` is the owning user id;
`createdAt` is the timestamps plugin field used by the GET sort. -/
structure Task where
  _id : Nat
  title : String
  description : String
  completed : Bool
  user : Nat
  createdAt : Nat
  deriving Repr, DecidableEq

/-- A signed JWT, structurally: payload `userId`, issued-at, expiry, and the
secret used to sign (`sig`). -/
structure Token where
  userId : Nat
  iat : Nat
  exp : Nat
  sig : String
  deriving Repr, DecidableEq

/-- The token part of an `Authorization: Bearer <token>` header: either a
structurally well-formed JWT or an unparsable string. -/
inductive BearerToken where
  | garbage (raw : String)
  | tok (t : Token)
  deriving Repr, DecidableEq

/-- The Authorization header of a request, as the gate inspects it:
absent, present but not starting with `Bearer `, or a bearer credential. -/
inductive AuthHeader where
  | missing
  | notBearer (raw : String)
  | bearer (b : BearerToken)
  deriving Repr, DecidableEq

/-- jsonwebtoken failure modes relevant here. -/
inductive JwtError where
  | malformed
  | expired
  deriving Repr, DecidableEq

def secondsPerDay : Nat := 86400

/-- `jwt.sign(\x7b userId \x7d, secret, \x7b expiresIn \x7d)`: embeds the payload,
the issuance clock and the expiry, and signs with `secret`. -/
def jwtSign (userId : Nat) (secret : String) (now expiresInSec : Nat) : Token :=
  { userId := userId, iat := now, exp := now + expiresInSec, sig := secret }

/-- `jwt.verify(token, secret)` at clock `now`: fails on an unparsable token
or a signature mismatch (`JsonWebTokenError`), then on `now ≥ exp`
(`TokenExpiredError`); otherwise returns the embedded `userId`. -/
def jwtVerify (b : BearerToken) (secret : String) (now : Nat) : Except JwtError Nat :=
  match b with
  | .garbage _ => .error .malformed
  | .tok t =>
      if t.sig ≠ secret then .error .malformed
      else if t.exp ≤ now then .error .expired
      else .ok t.userId

/-! ### routes/auth.js : secret and token issuance -/

namespace AuthRoutes

/-- routes/auth.js line 14: `process.env.JWT_SECRET || ...` fallback. -/
def JWT_SECRET (env : Option String) : String :=
  env.getD "your-secret-key-change-in-production"

/-- routes/auth.js `generateToken`: sign `\x7b userId \x7d` with the routes-file
secret, expiring in 7 days. -/
def generateToken (userId : Nat) (env : Option String) (now : Nat) : Token :=
  jwtSign userId (JWT_SECRET env) now (7 * secondsPerDay)

end AuthRoutes

/-! ### middleware/auth.js : the identity gate -/

namespace AuthMiddleware

/-- middleware/auth.js line 9: the same environment read with the same
hardcoded fallback, performed independently of routes/auth.js. -/
def JWT_SECRET (env : Option String) : String :=
  env.getD "your-secret-key-change-in-production"

end AuthMiddleware

/-- `User.findById` over the users collection. -/
def findById (users : List User) (id : Nat) : Option User :=
  users.find? (fun u => u._id == id)

/-- Outcome of the `authenticate` middleware: a 401 rejection with its JSON
body, or acceptance attaching the verified user id to the request. -/
inductive AuthResult where
  | reject (status : Nat) (error : String) (message : String)
  | accept (userId : Nat)
  deriving Repr, DecidableEq

/-- middleware/auth.js `authenticate`: header-shape check, `jwt.verify`,
then the `User.findById` existence check; on success `req.user.userId` is
the token's embedded id. -/
def authenticate (header : AuthHeader) (users : List User) (env : Option String)
    (now : Nat) : AuthResult :=
  match header with
  | .missing =>
      .reject 401 "Unauthorized"
        "No token provided. Please include a Bearer token in the Authorization header."
  | .notBearer _ =>
      .reject 401 "Unauthorized"
        "No token provided. Please include a Bearer token in the Authorization header."
  | .bearer b =>
      match jwtVerify b (AuthMiddleware.JWT_SECRET env) now with
      | .error _ => .reject 401 "Unauthorized" "Invalid or expired token"
      | .ok uid =>
          match findById users uid with
          | none => .reject 401 "Unauthorized" "User no longer exists"
          | some _ => .accept uid

/-! ### routes/auth.js : register and login handlers -/

/-- Response of the register/login handlers, carrying the exact JSON fields. -/
inductive AuthRes where
  | validationFailed
  | userExists (message : String)
  | invalidCredentials (error : String) (message : String)
  | registered (token : Token) (user : SafeUser)
  | loggedIn (token : Token) (user : SafeUser)
  deriving Repr, DecidableEq

/-- HTTP status of each register/login response. -/
def AuthRes.status : AuthRes → Nat
  | .validationFailed => 400
  | .userExists _ => 400
  | .invalidCredentials _ _ => 401
  | .registered _ _ => 201
  | .loggedIn _ _ => 200

/-- routes/auth.js POST /register handler (after the validation middleware,
whose verdict is `validationOk`): duplicate check on
`\x7b $or: [\x7b email \x7d, \x7b username \x7d] \x7d` with the email-vs-username message
chosen by `existingUser.email === email`; otherwise persist the user with
the hashed password and answer 201 with a token and the public projection. -/
def register (validationOk : Bool) (username email password : String)
    (users : List User) (hash : String → String) (env : Option String)
    (freshId now : Nat) : AuthRes × List User :=
  if !validationOk then (.validationFailed, users)
  else
    match users.find? (fun u => u.email == email || u.username == username) with
    | some existingUser =>
        (.userExists
          (if existingUser.email == email then "Email is already registered"
           else "Username is already taken"), users)
    | none =>
        let user : User :=
          { _id := freshId, username := username, email := email, password := hash password }
        (.registered (AuthRoutes.generateToken freshId env now) (dropPassword user),
         users ++ [user])

/-- `User.findOne(\x7b email \x7d)` without `.select`: the default read, which
excludes the password field per the schema's `select: false`. -/
def findOneByEmailDefault (users : List User) (email : String) : Option SafeUser :=
  (users.find? (fun u => u.email == email)).map dropPassword

/-- `User.findOne(\x7b email \x7d).select(+password)`: the login-path read that
re-includes the password hash. -/
def findOneByEmailWithPassword (users : List User) (email : String) : Option User :=
  users.find? (fun u => u.email == email)

/-- routes/auth.js POST /login handler (after validation): look up by email
with the password re-included, answer one fixed 401 body when the user is
absent or `comparePassword` fails, else 200 with a token and projection. -/
def login (validationOk : Bool) (email password : String) (users : List User)
    (compare : String → String → Bool) (env : Option String) (now : Nat) : AuthRes :=
  if !validationOk then .validationFailed
  else
    match findOneByEmailWithPassword users email with
    | none => .invalidCredentials "Invalid credentials" "Email or password is incorrect"
    | some user =>
        if !(compare password user.password) then
          .invalidCredentials "Invalid credentials" "Email or password is incorrect"
        else
          .loggedIn (AuthRoutes.generateToken user._id env now) (dropPassword user)

/-! ### routes/tasks.js : task CRUD handlers -/

/-- A parsed task request body: each field absent or present. -/
structure TaskBody where
  title : Option String
  description : Option String
  completed : Option Bool
  deriving Repr, DecidableEq

/-- The `:id` path parameter: a well-formed ObjectId (modelled as `Nat`) or
a syntactically malformed string, on which Mongoose casts throw `CastError`. -/
inductive IdParam where
  | valid (id : Nat)
  | malformed (raw : String)
  deriving Repr, DecidableEq

/-- The whitespace trim performed by the `.trim()` sanitizer: strip
whitespace characters from both ends. -/
def jsTrim (s : String) : String :=
  ⟨((s.data.dropWhile Char.isWhitespace).reverse.dropWhile Char.isWhitespace).reverse⟩

/-- The express-validator `.trim()` sanitizers on title and description. -/
def sanitizeBody (b : TaskBody) : TaskBody :=
  { b with title := b.title.map jsTrim, description := b.description.map jsTrim }

/-- POST / validation: title required, non-empty after trim, ≤200 chars;
description optional, ≤1000 chars; completed optional boolean (typed). -/
def validCreate (b : TaskBody) : Bool :=
  (match b.title with
   | some t => !t.isEmpty && t.length ≤ 200
   | none => false)
  && (match b.description with
      | some d => d.length ≤ 1000
      | none => true)

/-- PUT /:id validation: same bounds, but every field optional. -/
def validUpdate (b : TaskBody) : Bool :=
  (match b.title with
   | some t => !t.isEmpty && t.length ≤ 200
   | none => true)
  && (match b.description with
      | some d => d.length ≤ 1000
      | none => true)

/-- Response of a task handler, with the exact error identities. -/
inductive TaskRes where
  | validationFailed
  | invalidId
  | notFound (message : String)
  | created (task : Task)
  | ok (task : Task)
  | list (tasks : List Task)
  deriving Repr, DecidableEq

/-- HTTP status of each task response. -/
def TaskRes.status : TaskRes → Nat
  | .validationFailed => 400
  | .invalidId => 400
  | .notFound _ => 404
  | .created _ => 201
  | .ok _ => 200
  | .list _ => 200

/-- routes/tasks.js POST / handler (run as the verified `uid`): build the
task with `description || ` empty and `completed || false` defaults, save. -/
def createTask (uid : Nat) (rawBody : TaskBody) (tasks : List Task)
    (freshId now : Nat) : TaskRes × List Task :=
  let b := sanitizeBody rawBody
  if !validCreate b then (.validationFailed, tasks)
  else
    let task : Task :=
      { _id := freshId, title := b.title.getD "", description := b.description.getD "",
        completed := b.completed.getD false, user := uid, createdAt := now }
    (.created task, tasks ++ [task])

/-- Insert into a list kept in descending `createdAt` order. -/
def insertDesc (t : Task) : List Task → List Task
  | [] => [t]
  | x :: xs => if t.createdAt ≤ x.createdAt then x :: insertDesc t xs else t :: x :: xs

/-- `.sort(\x7b createdAt: -1 \x7d)`: newest first. -/
def sortByCreatedDesc : List Task → List Task
  | [] => []
  | x :: xs => insertDesc x (sortByCreatedDesc xs)

/-- routes/tasks.js GET / handler: `Task.find(\x7b user: req.user.userId \x7d)`
sorted by creation date, newest first. -/
def getTasks (uid : Nat) (tasks : List Task) : TaskRes :=
  .list (sortByCreatedDesc (tasks.filter (fun t => t.user == uid)))

/-- The selective field updates of PUT /:id: only fields present in the
body are assigned. -/
def applyUpdates (b : TaskBody) (t : Task) : Task :=
  let t1 := match b.title with
    | some s => { t with title := s }
    | none => t
  let t2 := match b.description with
    | some s => { t1 with description := s }
    | none => t1
  match b.completed with
  | some c => { t2 with completed := c }
  | none => t2

/-- routes/tasks.js PUT /:id handler (run as the verified `uid`): body
validation first, then the single atomic owner-scoped lookup
`Task.findOne(\x7b _id: id, user: uid \x7d)`; a `CastError` on a malformed id is
caught in the route and answered 400; a miss is answered 404; otherwise the
present fields are assigned and the document saved back by `_id`. -/
def updateTask (uid : Nat) (idp : IdParam) (rawBody : TaskBody)
    (tasks : List Task) : TaskRes × List Task :=
  let b := sanitizeBody rawBody
  if !validUpdate b then (.validationFailed, tasks)
  else
    match idp with
    | .malformed _ => (.invalidId, tasks)
    | .valid id =>
        match tasks.find? (fun t => t._id == id && t.user == uid) with
        | none =>
            (.notFound "Task does not exist or you do not have permission to access it",
             tasks)
        | some task =>
            let task1 := applyUpdates b task
            (.ok task1, tasks.map (fun t => if t._id == task._id then task1 else t))

/-- routes/tasks.js DELETE /:id handler (run as the verified `uid`):
`Task.findOneAndDelete(\x7b _id: id, user: uid \x7d)`, with the same CastError
and not-found handling. -/
def deleteTask (uid : Nat) (idp : IdParam) (tasks : List Task) : TaskRes × List Task :=
  match idp with
  | .malformed _ => (.invalidId, tasks)
  | .valid id =>
      match tasks.find? (fun t => t._id == id && t.user == uid) with
      | none =>
          (.notFound "Task does not exist or you do not have permission to delete it",
           tasks)
      | some task =>
          (.ok task, tasks.eraseP (fun t => t._id == id && t.user == uid))

/-! ### Composed protected routes: `router.use(authenticate)` then handler -/

/-- Response of a protected route: the gate's rejection or the handler's
response. -/
inductive RouteRes where
  | auth (status : Nat) (error : String) (message : String)
  | handler (r : TaskRes)
  deriving Repr, DecidableEq

/-- GET /api/tasks behind the gate. -/
def routerGetTasks (header : AuthHeader) (users : List User) (env : Option String)
    (now : Nat) (tasks : List Task) : RouteRes :=
  match authenticate header users env now with
  | .reject s e m => .auth s e m
  | .accept uid => .handler (getTasks uid tasks)

/-- PUT /api/tasks/:id behind the gate. -/
def routerPutTask (header : AuthHeader) (users : List User) (env : Option String)
    (now : Nat) (idp : IdParam) (body : TaskBody) (tasks : List Task) :
    RouteRes × List Task :=
  match authenticate header users env now with
  | .reject s e m => (.auth s e m, tasks)
  | .accept uid =>
      let r := updateTask uid idp body tasks
      (.handler r.1, r.2)

/-- DELETE /api/tasks/:id behind the gate. -/
def routerDeleteTask (header : AuthHeader) (users : List User) (env : Option String)
    (now : Nat) (idp : IdParam) (tasks : List Task) : RouteRes × List Task :=
  match authenticate header users env now with
  | .reject s e m => (.auth s e m, tasks)
  | .accept uid =>
      let r := deleteTask uid idp tasks
      (.handler r.1, r.2)

/-! ## Helper lemmas -/

/-- Membership is preserved by the descending insertion step. -/
theorem mem_insertDesc (a t : Task) (l : List Task) :
    t ∈ insertDesc a l ↔ t = a ∨ t ∈ l := by
  induction l with
  | nil => simp [insertDesc]
  | cons x xs ih =>
      simp only [insertDesc]
      split
      · simp only [List.mem_cons, ih]
        tauto
      · simp only [List.mem_cons]

/-- Membership is preserved by the GET sort. -/
theorem mem_sortByCreatedDesc (t : Task) (l : List Task) :
    t ∈ sortByCreatedDesc l ↔ t ∈ l := by
  induction l with
  | nil => simp [sortByCreatedDesc]
  | cons x xs ih => simp [sortByCreatedDesc, mem_insertDesc, ih]

/-! ## Claims -/

/-- C2: the identity gate rejects with 401 in exactly three cases, in order:
(1) authorization header absent or not of the Bearer shape; (2) the token
fails signature verification or is expired, with one undistinguishing
response; (3) the embedded identity matches no existing user. Otherwise it
attaches the verified identity and the handler runs. -/
theorem authenticate_gate_cases (header : AuthHeader) (users : List User)
    (env : Option String) (now : Nat) :
    ((header = .missing ∨ ∃ raw, header = .notBearer raw) →
      authenticate header users env now = .reject 401 "Unauthorized"
        "No token provided. Please include a Bearer token in the Authorization header.")
    ∧ (∀ b, header = .bearer b →
        (∃ e, jwtVerify b (AuthMiddleware.JWT_SECRET env) now = .error e) →
        authenticate header users env now =
          .reject 401 "Unauthorized" "Invalid or expired token")
    ∧ (∀ b uid, header = .bearer b →
        jwtVerify b (AuthMiddleware.JWT_SECRET env) now = .ok uid →
        findById users uid = none →
        authenticate header users env now =
          .reject 401 "Unauthorized" "User no longer exists")
    ∧ (∀ b uid u, header = .bearer b →
        jwtVerify b (AuthMiddleware.JWT_SECRET env) now = .ok uid →
        findById users uid = some u →
        authenticate header users env now = .accept uid) := by
  refine ⟨?_, ?_, ?_, ?_⟩
  · rintro (rfl | ⟨raw, rfl⟩) <;> rfl
  · rintro b rfl ⟨e, he⟩
    simp [authenticate, he]
  · rintro b uid rfl hok hnone
    simp [authenticate, hok, hnone]
  · rintro b uid u rfl hok hsome
    simp [authenticate, hok, hsome]

/-- C2 witness: each of the four cases at a concrete input. -/
theorem authenticate_gate_cases_witness :
    authenticate .missing [] none 0 = .reject 401 "Unauthorized"
      "No token provided. Please include a Bearer token in the Authorization header."
    ∧ authenticate (.bearer (.garbage "xyz")) [] none 0 =
        .reject 401 "Unauthorized" "Invalid or expired token"
    ∧ authenticate (.bearer (.tok ⟨5, 0, 100, "your-secret-key-change-in-production"⟩))
        [] none 0 = .reject 401 "Unauthorized" "User no longer exists"
    ∧ authenticate (.bearer (.tok ⟨5, 0, 100, "your-secret-key-change-in-production"⟩))
        [⟨5, "bob", "bob@example.com", "h"⟩] none 0 = .accept 5 :=
  ⟨(authenticate_gate_cases .missing [] none 0).1 (Or.inl rfl),
   (authenticate_gate_cases (.bearer (.garbage "xyz")) [] none 0).2.1
     (.garbage "xyz") rfl ⟨.malformed, rfl⟩,
   (authenticate_gate_cases (.bearer (.tok ⟨5, 0, 100,
        "your-secret-key-change-in-production"⟩)) [] none 0).2.2.1
     (.tok ⟨5, 0, 100, "your-secret-key-change-in-production"⟩) 5 rfl (by simp [jwtVerify, AuthMiddleware.JWT_SECRET]) (by decide),
   (authenticate_gate_cases (.bearer (.tok ⟨5, 0, 100,
        "your-secret-key-change-in-production"⟩))
        [⟨5, "bob", "bob@example.com", "h"⟩] none 0).2.2.2
     (.tok ⟨5, 0, 100, "your-secret-key-change-in-production"⟩) 5
     ⟨5, "bob", "bob@example.com", "h"⟩ rfl (by simp [jwtVerify, AuthMiddleware.JWT_SECRET]) (by decide)⟩

/-- C4: a token issued at registration or login embeds the identity and an
expiry exactly 7 days after issuance; a signature-valid token whose embedded
expiry is in the past is rejected 401 at the gate; a signature-valid token
within its window verifies to the embedded identity. -/
theorem token_seven_day_validity (uid : Nat) (env : Option String)
    (now : Nat) (users : List User) (t : Token) (now2 : Nat) :
    ((AuthRoutes.generateToken uid env now).userId = uid
      ∧ (AuthRoutes.generateToken uid env now).iat = now
      ∧ (AuthRoutes.generateToken uid env now).exp = now + 7 * secondsPerDay)
    ∧ (t.sig = AuthMiddleware.JWT_SECRET env → t.exp < now2 →
        authenticate (.bearer (.tok t)) users env now2 =
          .reject 401 "Unauthorized" "Invalid or expired token")
    ∧ (∀ u, t.sig = AuthMiddleware.JWT_SECRET env → now2 < t.exp →
        findById users t.userId = some u →
        authenticate (.bearer (.tok t)) users env now2 = .accept t.userId) := by
  refine ⟨⟨rfl, rfl, rfl⟩, ?_, ?_⟩
  · intro hsig hexp
    simp [authenticate, jwtVerify, hsig, Nat.le_of_lt hexp]
  · intro u hsig hwin hfind
    simp [authenticate, jwtVerify, hsig, Nat.not_le_of_lt hwin, hfind]

/-- C4 witness: issuance shape, expired rejection, and in-window acceptance
at concrete inputs. -/
theorem token_seven_day_validity_witness :
    ((AuthRoutes.generateToken 5 none 1000).userId = 5
      ∧ (AuthRoutes.generateToken 5 none 1000).iat = 1000
      ∧ (AuthRoutes.generateToken 5 none 1000).exp = 1000 + 7 * secondsPerDay)
    ∧ authenticate (.bearer (.tok ⟨5, 0, 100, "your-secret-key-change-in-production"⟩))
        [⟨5, "bob", "bob@example.com", "h"⟩] none 200 =
        .reject 401 "Unauthorized" "Invalid or expired token"
    ∧ authenticate (.bearer (.tok ⟨5, 0, 100, "your-secret-key-change-in-production"⟩))
        [⟨5, "bob", "bob@example.com", "h"⟩] none 50 = .accept 5 :=
  ⟨(token_seven_day_validity 5 none 1000 [] ⟨5, 0, 100, ""⟩ 0).1,
   (token_seven_day_validity 5 none 1000 [⟨5, "bob", "bob@example.com", "h"⟩]
      ⟨5, 0, 100, "your-secret-key-change-in-production"⟩ 200).2.1 rfl (by decide),
   (token_seven_day_validity 5 none 1000 [⟨5, "bob", "bob@example.com", "h"⟩]
      ⟨5, 0, 100, "your-secret-key-change-in-production"⟩ 50).2.2
     ⟨5, "bob", "bob@example.com", "h"⟩ rfl (by decide) (by decide)⟩

/-- C10: the auth routes and the identity gate read the signing secret
independently but agree (same variable, same hardcoded fallback), so a token
produced by register/login verifies at the gate back to the same identity
before expiry, even with no configured secret. -/
theorem jwt_secret_agreement_roundtrip (env : Option String) (uid now now2 : Nat)
    (users : List User) :
    AuthRoutes.JWT_SECRET env = AuthMiddleware.JWT_SECRET env
    ∧ (∀ u, now2 < now + 7 * secondsPerDay →
        findById users uid = some u →
        authenticate (.bearer (.tok (AuthRoutes.generateToken uid env now)))
          users env now2 = .accept uid) := by
  refine ⟨rfl, ?_⟩
  intro u hwin hfind
  simp [authenticate, jwtVerify, AuthRoutes.generateToken, jwtSign,
    AuthRoutes.JWT_SECRET, AuthMiddleware.JWT_SECRET, Nat.not_le_of_lt hwin, hfind]

/-- C10 witness: with no configured secret, a freshly issued token for user 5
is accepted back as user 5 by the gate. -/
theorem jwt_secret_agreement_roundtrip_witness :
    AuthRoutes.JWT_SECRET none = AuthMiddleware.JWT_SECRET none
    ∧ authenticate (.bearer (.tok (AuthRoutes.generateToken 5 none 1000)))
        [⟨5, "bob", "bob@example.com", "h"⟩] none 2000 = .accept 5 :=
  ⟨(jwt_secret_agreement_roundtrip none 5 1000 2000 []).1,
   (jwt_secret_agreement_roundtrip none 5 1000 2000
      [⟨5, "bob", "bob@example.com", "h"⟩]).2
     ⟨5, "bob", "bob@example.com", "h"⟩ (by decide) (by decide)⟩

/-- C1: task access is ownership-scoped. Behind a gate-verified identity,
GET /api/tasks returns only tasks owned by that identity, and PUT/DELETE on
an existing task id owned by a different identity answers 404 (the same
not-found response as for a non-existent id), never 403. -/
theorem task_access_owner_scoped (header : AuthHeader) (users : List User)
    (env : Option String) (now : Nat) (tasks : List Task) (uid : Nat)
    (hacc : authenticate header users env now = .accept uid) :
    (∀ l, routerGetTasks header users env now tasks = .handler (.list l) →
        ∀ t ∈ l, t.user = uid)
    ∧ (∀ i body, (∃ t ∈ tasks, t._id = i) →
        (∀ t ∈ tasks, t._id = i → t.user ≠ uid) →
        validUpdate (sanitizeBody body) = true →
        routerPutTask header users env now (.valid i) body tasks =
          (.handler (.notFound
            "Task does not exist or you do not have permission to access it"), tasks)
        ∧ (TaskRes.notFound
            "Task does not exist or you do not have permission to access it").status = 404)
    ∧ (∀ i, (∃ t ∈ tasks, t._id = i) →
        (∀ t ∈ tasks, t._id = i → t.user ≠ uid) →
        routerDeleteTask header users env now (.valid i) tasks =
          (.handler (.notFound
            "Task does not exist or you do not have permission to delete it"), tasks)
        ∧ (TaskRes.notFound
            "Task does not exist or you do not have permission to delete it").status = 404) := by
  refine ⟨?_, ?_, ?_⟩
  · intro l hl t ht
    simp only [routerGetTasks, hacc, getTasks, RouteRes.handler.injEq,
      TaskRes.list.injEq] at hl
    subst hl
    rw [mem_sortByCreatedDesc] at ht
    exact beq_iff_eq.mp (List.mem_filter.mp ht).2
  · intro i body _ hothers hv
    have hnone : tasks.find? (fun t => t._id == i && t.user == uid) = none := by
      rw [List.find?_eq_none]
      intro t ht
      simp only [Bool.and_eq_true, beq_iff_eq, not_and]
      exact hothers t ht
    refine ⟨?_, rfl⟩
    rw [routerPutTask, hacc]
    simp [updateTask, hv, hnone]
  · intro i _ hothers
    have hnone : tasks.find? (fun t => t._id == i && t.user == uid) = none := by
      rw [List.find?_eq_none]
      intro t ht
      simp only [Bool.and_eq_true, beq_iff_eq, not_and]
      exact hothers t ht
    refine ⟨?_, rfl⟩
    rw [routerDeleteTask, hacc]
    simp [deleteTask, hnone]

/-- C1 witness: user 5 authenticates while user 9 owns task 1; every task
GET lists for user 5 is owned by user 5, and PUT/DELETE on task 1 answer
the 404 not-found body, leaving the store unchanged. -/
theorem task_access_owner_scoped_witness :
    (∀ l, routerGetTasks
        (.bearer (.tok ⟨5, 0, 100, "your-secret-key-change-in-production"⟩))
        [⟨5, "bob", "bob@example.com", "h"⟩] none 50 [⟨1, "t", "", false, 9, 0⟩]
        = .handler (.list l) → ∀ t ∈ l, t.user = 5)
    ∧ routerPutTask
        (.bearer (.tok ⟨5, 0, 100, "your-secret-key-change-in-production"⟩))
        [⟨5, "bob", "bob@example.com", "h"⟩] none 50 (.valid 1) ⟨none, none, none⟩
        [⟨1, "t", "", false, 9, 0⟩]
      = (.handler (.notFound
          "Task does not exist or you do not have permission to access it"),
         [⟨1, "t", "", false, 9, 0⟩])
    ∧ routerDeleteTask
        (.bearer (.tok ⟨5, 0, 100, "your-secret-key-change-in-production"⟩))
        [⟨5, "bob", "bob@example.com", "h"⟩] none 50 (.valid 1)
        [⟨1, "t", "", false, 9, 0⟩]
      = (.handler (.notFound
          "Task does not exist or you do not have permission to delete it"),
         [⟨1, "t", "", false, 9, 0⟩]) :=
  ⟨(task_access_owner_scoped
      (.bearer (.tok ⟨5, 0, 100, "your-secret-key-change-in-production"⟩))
      [⟨5, "bob", "bob@example.com", "h"⟩] none 50 [⟨1, "t", "", false, 9, 0⟩] 5
      (by decide)).1,
   ((task_access_owner_scoped
      (.bearer (.tok ⟨5, 0, 100, "your-secret-key-change-in-production"⟩))
      [⟨5, "bob", "bob@example.com", "h"⟩] none 50 [⟨1, "t", "", false, 9, 0⟩] 5
      (by decide)).2.1 1 ⟨none, none, none⟩ (by decide) (by decide) (by decide)).1,
   ((task_access_owner_scoped
      (.bearer (.tok ⟨5, 0, 100, "your-secret-key-change-in-production"⟩))
      [⟨5, "bob", "bob@example.com", "h"⟩] none 50 [⟨1, "t", "", false, 9, 0⟩] 5
      (by decide)).2.2 1 (by decide) (by decide)).1⟩

/-- C7: a PUT or DELETE on /api/tasks/:id with a syntactically malformed id
(run as any authenticated identity) answers 400 — never 500 and never 404:
the route handlers catch the CastError themselves. -/
theorem malformed_id_put_delete_400 (uid : Nat) (raw : String) (body : TaskBody)
    (tasks : List Task) :
    (updateTask uid (.malformed raw) body tasks).1.status = 400
    ∧ (deleteTask uid (.malformed raw) tasks).1.status = 400 := by
  constructor
  · cases h : validUpdate (sanitizeBody body) <;>
      simp [updateTask, h, TaskRes.status]
  · rfl

/-- C8: a PUT with an empty body on a task owned by the caller answers 200
with the task unchanged (store ids being unique), and `applyUpdates` only
touches fields explicitly present in the body. -/
theorem empty_body_update_frame (uid i : Nat) (tasks : List Task) (task : Task)
    (b : TaskBody) :
    (tasks.find? (fun t => t._id == i && t.user == uid) = some task →
      (tasks.map Task._id).Nodup →
      updateTask uid (.valid i) ⟨none, none, none⟩ tasks = (.ok task, tasks)
      ∧ (TaskRes.ok task).status = 200)
    ∧ (b.title = none → (applyUpdates b task).title = task.title)
    ∧ (b.description = none → (applyUpdates b task).description = task.description)
    ∧ (b.completed = none → (applyUpdates b task).completed = task.completed) := by
  refine ⟨?_, ?_, ?_, ?_⟩
  · intro hfind hnodup
    have hmem : task ∈ tasks := List.mem_of_find?_eq_some hfind
    have hmap : tasks.map (fun t => if t._id == task._id then task else t) = tasks := by
      have : ∀ t ∈ tasks, (if t._id == task._id then task else t) = t := by
        intro t ht
        by_cases hid : t._id = task._id
        · have : t = task := List.inj_on_of_nodup_map hnodup ht hmem hid
          simp [this]
        · simp [hid]
      calc tasks.map (fun t => if t._id == task._id then task else t)
          = tasks.map id := List.map_congr_left (by simpa using this)
        _ = tasks := List.map_id tasks
    refine ⟨?_, rfl⟩
    simp only [updateTask, sanitizeBody, Option.map_none, validUpdate, Bool.and_self,
      Bool.not_true, Bool.false_eq_true, if_false, hfind]
    simpa [applyUpdates] using hmap
  · intro h
    rcases b with ⟨bt, bd, bc⟩
    cases h
    cases bd <;> cases bc <;> rfl
  · intro h
    rcases b with ⟨bt, bd, bc⟩
    cases h
    cases bt <;> cases bc <;> rfl
  · intro h
    rcases b with ⟨bt, bd, bc⟩
    cases h
    cases bt <;> cases bd <;> rfl

/-- C8 witness: an empty-body PUT by owner 7 on the single stored task
returns it unchanged with an unchanged store. -/
theorem empty_body_update_frame_witness :
    updateTask 7 (.valid 1) ⟨none, none, none⟩ [⟨1, "a", "d", false, 7, 0⟩]
      = (.ok ⟨1, "a", "d", false, 7, 0⟩, [⟨1, "a", "d", false, 7, 0⟩])
    ∧ (TaskRes.ok ⟨1, "a", "d", false, 7, 0⟩).status = 200 :=
  (empty_body_update_frame 7 1 [⟨1, "a", "d", false, 7, 0⟩] ⟨1, "a", "d", false, 7, 0⟩
    ⟨none, none, none⟩).1 (by decide) (by decide)

/-- C9: creating a task with only a title and reading it back yields the
trimmed title, `completed = false` and `description = empty`: the declared
defaults are applied for absent optional fields. -/
theorem create_title_only_roundtrip (uid : Nat) (title : String)
    (tasks : List Task) (freshId now : Nat)
    (h1 : (jsTrim title).isEmpty = false) (h2 : (jsTrim title).length ≤ 200) :
    ∃ task tasks2,
      createTask uid ⟨some title, none, none⟩ tasks freshId now
        = (.created task, tasks2)
      ∧ task.title = jsTrim title ∧ task.description = "" ∧ task.completed = false
      ∧ task.user = uid
      ∧ ∃ l, getTasks uid tasks2 = .list l ∧ task ∈ l := by
  refine ⟨⟨freshId, jsTrim title, "", false, uid, now⟩, tasks ++
    [⟨freshId, jsTrim title, "", false, uid, now⟩], ?_, rfl, rfl, rfl, rfl, ?_⟩
  · simp [createTask, sanitizeBody, validCreate, h1, h2, Option.getD]
  · refine ⟨_, rfl, ?_⟩
    rw [mem_sortByCreatedDesc]
    refine List.mem_filter.mpr ⟨List.mem_append_right _ (List.mem_singleton.mpr rfl), ?_⟩
    simp

/-- C9 witness: the round-trip at the concrete title. -/
theorem create_title_only_roundtrip_witness :
    ∃ task tasks2,
      createTask 7 ⟨some "Buy milk", none, none⟩ [] 1 0
        = (.created task, tasks2)
      ∧ task.title = jsTrim "Buy milk" ∧ task.description = "" ∧ task.completed = false
      ∧ task.user = 7
      ∧ ∃ l, getTasks 7 tasks2 = .list l ∧ task ∈ l :=
  create_title_only_roundtrip 7 "Buy milk" [] 1 0 (by decide) (by decide)

/-- C3: login with a registered email but wrong password and login with an
unregistered email produce byte-identical failure responses: same 401
status, same error and message strings. -/
theorem login_uniform_error (e1 pw1 e2 pw2 : String) (users : List User)
    (compare : String → String → Bool) (env : Option String) (now : Nat) (u : User)
    (h1 : findOneByEmailWithPassword users e1 = none)
    (h2 : findOneByEmailWithPassword users e2 = some u)
    (h3 : compare pw2 u.password = false) :
    login true e1 pw1 users compare env now = login true e2 pw2 users compare env now
    ∧ login true e1 pw1 users compare env now =
        .invalidCredentials "Invalid credentials" "Email or password is incorrect"
    ∧ (login true e1 pw1 users compare env now).status = 401 := by
  have ha : login true e1 pw1 users compare env now =
      .invalidCredentials "Invalid credentials" "Email or password is incorrect" := by
    simp [login, h1]
  have hb : login true e2 pw2 users compare env now =
      .invalidCredentials "Invalid credentials" "Email or password is incorrect" := by
    simp [login, h2, h3]
  exact ⟨ha.trans hb.symm, ha, by rw [ha]; rfl⟩

/-- C3 witness: a store with one user, a comparator rejecting the guess:
the no-such-email and wrong-password responses coincide. -/
theorem login_uniform_error_witness :
    login true "nosuch@example.com" "guess1" [⟨1, "bob", "bob@example.com", "H1"⟩]
        (fun _ _ => false) none 0
      = login true "bob@example.com" "guess2" [⟨1, "bob", "bob@example.com", "H1"⟩]
          (fun _ _ => false) none 0
    ∧ login true "nosuch@example.com" "guess1" [⟨1, "bob", "bob@example.com", "H1"⟩]
        (fun _ _ => false) none 0
      = .invalidCredentials "Invalid credentials" "Email or password is incorrect"
    ∧ (login true "nosuch@example.com" "guess1" [⟨1, "bob", "bob@example.com", "H1"⟩]
        (fun _ _ => false) none 0).status = 401 :=
  login_uniform_error "nosuch@example.com" "guess1" "bob@example.com" "guess2"
    [⟨1, "bob", "bob@example.com", "H1"⟩] (fun _ _ => false) none 0
    ⟨1, "bob", "bob@example.com", "H1"⟩ (by decide) (by decide) rfl

/-- C5 counterexample: with user 1 = (bob, bob at example.com) and user 2 =
(alice, alice at example.com) in the store, registering username bob with
email alice at example.com collides on BOTH fields, yet the message names
the username, because the disjunctive `findOne` matches user 1 (username
collision) first and that record's email differs. -/
theorem register_email_precedence_counterexample :
    ((⟨2, "alice", "alice@example.com", "h2"⟩ : User) ∈
        ([⟨1, "bob", "bob@example.com", "h1"⟩,
          ⟨2, "alice", "alice@example.com", "h2"⟩] : List User)
      ∧ (⟨2, "alice", "alice@example.com", "h2"⟩ : User).email = "alice@example.com")
    ∧ ((⟨1, "bob", "bob@example.com", "h1"⟩ : User) ∈
        ([⟨1, "bob", "bob@example.com", "h1"⟩,
          ⟨2, "alice", "alice@example.com", "h2"⟩] : List User)
      ∧ (⟨1, "bob", "bob@example.com", "h1"⟩ : User).username = "bob")
    ∧ (register true "bob" "alice@example.com" "secret99"
        [⟨1, "bob", "bob@example.com", "h1"⟩,
         ⟨2, "alice", "alice@example.com", "h2"⟩] (fun s => s) none 3 0).1
      = .userExists "Username is already taken"
    ∧ (.userExists "Username is already taken" : AuthRes) ≠
        .userExists "Email is already registered" := by
  refine ⟨⟨by decide, rfl⟩, ⟨by decide, rfl⟩, by decide, by decide⟩

/-- C5 (amended): a registration colliding on email or username fails with
400 and persists nothing; the message names the email when the first record
matched by the disjunctive query carries the colliding email (so email wins
whenever one record collides on both), and the username otherwise. -/
theorem register_duplicate_first_match (username email password : String)
    (users : List User) (hash : String → String) (env : Option String)
    (freshId now : Nat) (ex : User)
    (hfind : users.find? (fun u => u.email == email || u.username == username)
      = some ex) :
    register true username email password users hash env freshId now
      = (.userExists (if ex.email == email then "Email is already registered"
                      else "Username is already taken"), users)
    ∧ (register true username email password users hash env freshId now).1.status
        = 400 := by
  have h : register true username email password users hash env freshId now
      = (.userExists (if ex.email == email then "Email is already registered"
                      else "Username is already taken"), users) := by
    simp [register, hfind]
  exact ⟨h, by rw [h]; rfl⟩

/-- C5 witness: one stored record colliding on both fields: the email
message wins, the status is 400, the store is unchanged. -/
theorem register_duplicate_first_match_witness :
    register true "bob" "bob@example.com" "secret99"
        [⟨1, "bob", "bob@example.com", "h1"⟩] (fun s => s) none 2 0
      = (.userExists (if (⟨1, "bob", "bob@example.com", "h1"⟩ : User).email ==
            "bob@example.com" then "Email is already registered"
          else "Username is already taken"),
         [⟨1, "bob", "bob@example.com", "h1"⟩])
    ∧ (register true "bob" "bob@example.com" "secret99"
        [⟨1, "bob", "bob@example.com", "h1"⟩] (fun s => s) none 2 0).1.status = 400 :=
  register_duplicate_first_match "bob" "bob@example.com" "secret99"
    [⟨1, "bob", "bob@example.com", "h1"⟩] (fun s => s) none 2 0
    ⟨1, "bob", "bob@example.com", "h1"⟩ (by decide)

/-- C6: the password hash is excluded from default store reads, and the
user projection in the register and login success responses is exactly
(identity, username, email) — the `SafeUser` type carries no password. -/
theorem password_hash_never_serialized (users : List User)
    (validationOk : Bool) (username email pw : String) (hash : String → String)
    (env : Option String) (freshId now : Nat)
    (compare : String → String → Bool) :
    (findOneByEmailDefault users email
      = (findOneByEmailWithPassword users email).map dropPassword)
    ∧ (∀ tok proj users2,
        register validationOk username email pw users hash env freshId now
          = (.registered tok proj, users2) →
        proj = SafeUser.mk freshId username email)
    ∧ (∀ tok proj,
        login validationOk email pw users compare env now = .loggedIn tok proj →
        ∃ u, findOneByEmailWithPassword users email = some u
          ∧ proj = dropPassword u) := by
  refine ⟨rfl, ?_, ?_⟩
  · intro tok proj users2 h
    cases hvk : validationOk with
    | false => simp [register, hvk] at h
    | true =>
        cases hfind : users.find? (fun u => u.email == email || u.username == username) with
        | some ex => simp [register, hvk, hfind] at h
        | none =>
            simp [register, hvk, hfind, dropPassword] at h
            exact h.1.2.symm
  · intro tok proj h
    cases hvk : validationOk with
    | false => simp [login, hvk] at h
    | true =>
        cases hfind : findOneByEmailWithPassword users email with
        | none => simp [login, hvk, hfind] at h
        | some u =>
            cases hcmp : compare pw u.password with
            | false => simp [login, hvk, hfind, hcmp] at h
            | true =>
                simp [login, hvk, hfind, hcmp] at h
                exact ⟨u, rfl, h.2.symm⟩

/-- C6 witness: the default read drops the hash on a concrete store, and
the register and login projections at concrete inputs are exactly
(id, username, email). -/
theorem password_hash_never_serialized_witness :
    (findOneByEmailDefault [⟨1, "bob", "bob@example.com", "H1"⟩] "bob@example.com"
      = (findOneByEmailWithPassword [⟨1, "bob", "bob@example.com", "H1"⟩]
          "bob@example.com").map dropPassword)
    ∧ dropPassword ⟨1, "bob", "bob@example.com", "HASH"⟩
        = SafeUser.mk 1 "bob" "bob@example.com"
    ∧ ∃ u, findOneByEmailWithPassword [⟨1, "bob", "bob@example.com", "H1"⟩]
          "bob@example.com" = some u
        ∧ dropPassword ⟨1, "bob", "bob@example.com", "H1"⟩ = dropPassword u :=
  ⟨(password_hash_never_serialized [⟨1, "bob", "bob@example.com", "H1"⟩]
      true "bob" "bob@example.com" "pw123456" (fun _ => "HASH") none 1 0
      (fun _ _ => true)).1,
   (password_hash_never_serialized ([] : List User)
      true "bob" "bob@example.com" "pw123456" (fun _ => "HASH") none 1 0
      (fun _ _ => true)).2.1
     (AuthRoutes.generateToken 1 none 0)
     (dropPassword ⟨1, "bob", "bob@example.com", "HASH"⟩)
     [⟨1, "bob", "bob@example.com", "HASH"⟩] (by decide),
   (password_hash_never_serialized [⟨1, "bob", "bob@example.com", "H1"⟩]
      true "bob" "bob@example.com" "pw123456" (fun _ => "HASH") none 1 0
      (fun _ _ => true)).2.2
     (AuthRoutes.generateToken 1 none 0)
     (dropPassword ⟨1, "bob", "bob@example.com", "H1"⟩) (by decide)⟩

end SmartTodo
